import Mathlib

/-!
Shallow embedding of the Threader AI feedback-collection pipeline
(src/src/scrapers/redditScraper.js) together with the Impact-Score formula
documented in the repository (README and dashboard type declarations).

Network I/O is modelled by oracles: a page fetch is a function from the
attempt number to the HTTP outcome of that attempt, and a paginated
collection run receives one such oracle per page index.  Wall-clock reads
(`new Date()`) are passed in as explicit integer parameters (`now` for the
`scrapedAt` stamp, `windowStart` for the epoch second marking "24 hours
ago").  JavaScript truthiness (`x || d`, `x ? a : b`) is modelled by the
`js*` helpers below, with the empty string and the number 0 falsy.
-/

namespace Threader

/-- JavaScript `a || b` on an optional string: `undefined` and `""` are falsy. -/
def jsOrStr (a : Option String) (b : String) : String :=
  match a with
  | some s => if s = "" then b else s
  | none => b

/-- JavaScript `a || null` on an optional string: `undefined` and `""` give `null`. -/
def jsToNullStr (a : Option String) : Option String :=
  match a with
  | some s => if s = "" then none else some s
  | none => none

/-- JavaScript `a || b` on an optional number: `undefined` and `0` are falsy. -/
def jsOrInt (a : Option Int) (b : Int) : Int :=
  match a with
  | some n => if n = 0 then b else n
  | none => b

/-- JavaScript `a || null` on an optional rational (used for `upvote_ratio`). -/
def jsToNullRat (a : Option ℚ) : Option ℚ :=
  match a with
  | some r => if r = 0 then none else some r
  | none => none

/-- JavaScript template-literal interpolation of a possibly-undefined string:
`` `${x}` `` renders `undefined` as the string "undefined". -/
def jsTemplate (a : Option String) : String :=
  match a with
  | some s => s
  | none => "undefined"

/-- Whether `needle` is a leading run of `hay` (character-wise). -/
def listStartsWith : List Char → List Char → Bool
  | [], _ => true
  | _ :: _, [] => false
  | a :: ns, b :: hs => a == b && listStartsWith ns hs

/-- Substring search on character lists; the empty needle always matches,
as with JavaScript `String.prototype.includes`. -/
def listIncludes (needle : List Char) : List Char → Bool
  | [] => needle.isEmpty
  | b :: hs => listStartsWith needle (b :: hs) || listIncludes needle hs

/-- JavaScript `hay.includes(needle)`. -/
def strIncludes (hay needle : String) : Bool :=
  listIncludes needle.data hay.data

/-- JavaScript `s.toLowerCase()`, character-wise over the string's
characters. -/
def strToLower (s : String) : String :=
  ⟨s.data.map Char.toLower⟩

/-- One raw Reddit item as delivered by the JSON API (`child.data`); every
field the scraper reads.  Optional fields model keys that may be absent. -/
structure RawPost where
  id : String
  url : Option String
  permalink : Option String
  title : Option String
  selftext : Option String
  body : Option String
  author : Option String
  subreddit : String
  score : Option Int
  ups : Option Int
  num_comments : Option Int
  upvote_ratio : Option ℚ
  link_flair_text : Option String
  created_utc : Option Int
  deriving Repr, DecidableEq

/-- The empty `analysis` slot attached by `normalizeRedditItem`
(category, userSegment, impactType, urgency, sentiment — all null). -/
structure Analysis where
  category : Option String
  userSegment : Option String
  impactType : Option String
  urgency : Option String
  sentiment : Option String
  deriving Repr, DecidableEq

/-- One normalized comment as produced by `fetchPostComments`. -/
structure CommentRec where
  id : String
  body : Option String
  author : Option String
  upvotes : Int
  createdAt : Option Int
  deriving Repr, DecidableEq

/-- The normalized feedback record produced by `normalizeRedditItem`.
`createdAt` and `scrapedAt` are epoch milliseconds (the source stores ISO
strings derived from exactly these values; the rendering is presentational). -/
structure FeedbackRecord where
  source : String
  sourceId : String
  sourceUrl : String
  title : Option String
  body : String
  author : String
  subreddit : String
  upvotes : Int
  commentCount : Int
  upvoteRatio : Option ℚ
  flair : Option String
  createdAt : Option Int
  scrapedAt : Int
  companyName : String
  analysis : Analysis
  comments : List CommentRec
  deriving Repr, DecidableEq

/-- Embedding of `normalizeRedditItem` (redditScraper.js lines 174-212).
The source stamps `scrapedAt` from the wall clock inside the function; the
clock read is passed in as the explicit parameter `now`. -/
def normalizeRedditItem (now : Int) (item : RawPost) (companyName : String) :
    FeedbackRecord where
  source := "reddit"
  sourceId := item.id
  sourceUrl := jsOrStr item.url ("https://reddit.com" ++ jsTemplate item.permalink)
  title := jsToNullStr item.title
  body := jsOrStr item.selftext (jsOrStr item.body "")
  author := jsOrStr item.author "[deleted]"
  subreddit := item.subreddit
  upvotes := jsOrInt item.score (jsOrInt item.ups 0)
  commentCount := jsOrInt item.num_comments 0
  upvoteRatio := jsToNullRat item.upvote_ratio
  flair := jsToNullStr item.link_flair_text
  createdAt :=
    match item.created_utc with
    | some t => if t = 0 then none else some (t * 1000)
    | none => none
  scrapedAt := now
  companyName := companyName
  analysis := ⟨none, none, none, none, none⟩
  comments := []

/-- Embedding of `isRelevantPost` (redditScraper.js lines 286-289):
case-insensitive substring match of any search term in title+body. -/
def isRelevantPost (post : FeedbackRecord) (searchTerms : List String) : Bool :=
  let content := strToLower (jsOrStr post.title "" ++ " " ++ post.body)
  searchTerms.any (fun term => strIncludes content (strToLower term))

/-- HTTP outcome of one request attempt as classified by `fetchRedditJson`:
a 200 response carrying parsed JSON `a`, a 429, a 403, or anything that makes
the `try` block throw (non-ok status, network error, bad JSON). -/
inductive Resp (α : Type) where
  | ok (a : α)
  | rate
  | blocked
  | fail (msg : String)
  deriving Repr, DecidableEq

/-- Overall outcome of one `fetchRedditJson` call: a value, the implicit
`undefined` returned when every attempt was consumed by a 429/403 `continue`,
or a thrown error. -/
inductive FetchRes (α : Type) where
  | success (a : α)
  | undef
  | thrown (msg : String)
  deriving Repr, DecidableEq

/-- Result of a `fetchRedditJson` call plus the cool-down sleeps it performed
(in ms, excluding the per-request random jitter) and the number of loop
iterations (attempts) executed. -/
structure FetchOut (α : Type) where
  result : FetchRes α
  sleeps : List Nat
  attempts : Nat
  deriving Repr, DecidableEq

/-- Retry loop of `fetchRedditJson` (redditScraper.js lines 30-82).
`rs` maps the 1-based attempt number to that attempt's HTTP outcome; `fuel`
is the number of attempts still allowed (`retries - attempt + 1`).  A 429
sleeps 30000 ms and retries; a 403 sleeps 10000 ms and retries; a thrown
error on the final attempt is rethrown, otherwise it sleeps 5000 ms and
retries; exhausting the loop through 429/403 yields `undef`. -/
def fetchRedditJsonGo (rs : Nat → Resp α) (attempt : Nat) : Nat → FetchOut α
  | 0 => ⟨.undef, [], 0⟩
  | fuel + 1 =>
    match rs attempt with
    | .ok a => ⟨.success a, [], 1⟩
    | .rate =>
        let rest := fetchRedditJsonGo rs (attempt + 1) fuel
        ⟨rest.result, 30000 :: rest.sleeps, rest.attempts + 1⟩
    | .blocked =>
        let rest := fetchRedditJsonGo rs (attempt + 1) fuel
        ⟨rest.result, 10000 :: rest.sleeps, rest.attempts + 1⟩
    | .fail msg =>
        if fuel = 0 then ⟨.thrown msg, [], 1⟩
        else
          let rest := fetchRedditJsonGo rs (attempt + 1) fuel
          ⟨rest.result, 5000 :: rest.sleeps, rest.attempts + 1⟩

/-- Embedding of `fetchRedditJson(url, retries = 3)`: run the attempt loop
from attempt 1 with `retries` attempts allowed. -/
def fetchRedditJson (rs : Nat → Resp α) (retries : Nat := 3) : FetchOut α :=
  fetchRedditJsonGo rs 1 retries

/-- One page of a Reddit listing endpoint (`data.data`): the `children`
(each one a `RawPost` wrapped in `child.data`) and the pagination cursor
`after`. -/
structure Listing where
  children : List RawPost
  after : Option String
  deriving Repr, DecidableEq

/-- Parsed JSON of a listing request; `none` models a 200 response whose
`data` or `data.children` field is missing. -/
abbrev ListingJson := Option Listing

/-- A paginated-collection oracle: `po i j` is the HTTP outcome of the
`j`-th attempt (1-based) at fetching the `i`-th page (0-based). -/
abbrev PageOracle := Nat → Nat → Resp ListingJson

/-- The test `post.created_utc >= oneDayAgoTimestamp` used by both
collection loops; in JavaScript `undefined >= n` is false. -/
def inWindow (windowStart : Int) (p : RawPost) : Bool :=
  match p.created_utc with
  | some t => windowStart ≤ t
  | none => false

/-- Why a collection loop stopped. -/
inductive StopCause where
  | budget
  | fetchFailed
  | emptyPage
  | noCursor
  deriving Repr, DecidableEq

/-- `maxFetches = Math.ceil(maxItems / 25)`. -/
def maxFetchesFor (maxItems : Nat) : Nat := (maxItems + 24) / 25

/-- Final loop state of `fetchSubredditPosts`: the accumulated (already
normalized) posts, the number of pages fetched, and the stop cause. -/
structure SubLoopOut where
  acc : List FeedbackRecord
  fetchCount : Nat
  cause : StopCause
  deriving Repr, DecidableEq

/-- The in-window items of one listing page, normalized with the subreddit
name passed as the `companyName` argument (redditScraper.js line 438). -/
def pageItems (now windowStart : Int) (name : String) (l : Listing) :
    List FeedbackRecord :=
  (l.children.filter (inWindow windowStart)).map
    (fun p => normalizeRedditItem now p name)

/-- Pagination loop of `fetchSubredditPosts` (redditScraper.js lines
414-452).  `fuel` is `maxFetches - fetchCount`, so `fuel = 0` is the
`fetchCount < maxFetches` half of the `while` condition failing.  A thrown
fetch error — and equally the `undefined` produced by an exhausted 429/403
retry loop, which makes `data.data` throw a TypeError — is caught by the
`try`/`catch` inside the loop and breaks. -/
def fetchSubredditGo (po : PageOracle) (now windowStart : Int) (name : String)
    (maxItems : Nat) (fetchCount : Nat) (acc : List FeedbackRecord) :
    Nat → SubLoopOut
  | 0 => ⟨acc, fetchCount, .budget⟩
  | fuel + 1 =>
    if maxItems ≤ acc.length then ⟨acc, fetchCount, .budget⟩
    else
      match (fetchRedditJson (po fetchCount)).result with
      | .thrown _ => ⟨acc, fetchCount, .fetchFailed⟩
      | .undef => ⟨acc, fetchCount, .fetchFailed⟩
      | .success none => ⟨acc, fetchCount, .emptyPage⟩
      | .success (some l) =>
        if l.children.isEmpty then ⟨acc, fetchCount, .emptyPage⟩
        else
          let acc2 := acc ++ pageItems now windowStart name l
          match l.after with
          | none => ⟨acc2, fetchCount + 1, .noCursor⟩
          | some _ =>
              fetchSubredditGo po now windowStart name maxItems
                (fetchCount + 1) acc2 fuel

/-- The full pagination loop of `fetchSubredditPosts` started from the empty
state. -/
def fetchSubredditLoop (po : PageOracle) (now windowStart : Int)
    (name : String) (maxItems : Nat) : SubLoopOut :=
  fetchSubredditGo po now windowStart name maxItems 0 [] (maxFetchesFor maxItems)

/-- Embedding of `fetchSubredditPosts` (redditScraper.js lines 402-455):
run the loop, then `allPosts.slice(0, maxItems)`.  Total: every fetch
failure is caught inside the loop and merely stops pagination. -/
def fetchSubredditPosts (po : PageOracle) (now windowStart : Int)
    (name : String) (maxItems : Nat := 25) : List FeedbackRecord :=
  (fetchSubredditLoop po now windowStart name maxItems).acc.take maxItems

/-- Final loop state of `fetchRedditMentions` (raw, un-normalized posts). -/
structure MentionsLoopOut where
  acc : List RawPost
  fetchCount : Nat
  cause : StopCause
  deriving Repr, DecidableEq

/-- Pagination loop of `fetchRedditMentions` (redditScraper.js lines
115-152).  Unlike `fetchSubredditPosts` there is no `try`/`catch` inside the
loop: a thrown fetch error propagates (and is rethrown by the outer catch),
and an `undefined` fetch result makes `data.data` throw a TypeError, which
propagates the same way. -/
def fetchMentionsGo (po : PageOracle) (windowStart : Int) (maxItems : Nat)
    (fetchCount : Nat) (acc : List RawPost) :
    Nat → Except String MentionsLoopOut
  | 0 => .ok ⟨acc, fetchCount, .budget⟩
  | fuel + 1 =>
    if maxItems ≤ acc.length then .ok ⟨acc, fetchCount, .budget⟩
    else
      match (fetchRedditJson (po fetchCount)).result with
      | .thrown msg => .error msg
      | .undef => .error "TypeError: cannot read properties of undefined"
      | .success none => .ok ⟨acc, fetchCount, .emptyPage⟩
      | .success (some l) =>
        if l.children.isEmpty then .ok ⟨acc, fetchCount, .emptyPage⟩
        else
          let acc2 := acc ++ l.children.filter (inWindow windowStart)
          match l.after with
          | none => .ok ⟨acc2, fetchCount + 1, .noCursor⟩
          | some _ =>
              fetchMentionsGo po windowStart maxItems (fetchCount + 1) acc2 fuel

/-- Embedding of `fetchRedditMentions` (redditScraper.js lines 92-166):
paginate, then `allPosts.slice(0, maxItems).map(normalizeRedditItem)`. -/
def fetchRedditMentions (po : PageOracle) (now windowStart : Int)
    (companyName : String) (maxItems : Nat := 100) :
    Except String (List FeedbackRecord) :=
  (fetchMentionsGo po windowStart maxItems 0 [] (maxFetchesFor maxItems)).map
    (fun out => (out.acc.take maxItems).map
      (fun p => normalizeRedditItem now p companyName))

/-- One `child` of a comments listing: its `kind` tag (`"t1"` for comments)
and its `data`. -/
structure RChild where
  kind : String
  data : RawPost
  deriving Repr, DecidableEq

/-- Parsed JSON of a `permalink.json` request, reduced to the part the code
reads: `none` models a response where `data[1]`, `data[1].data` or
`data[1].data.children` is missing, `some cs` the comment children. -/
abbrev CommentsJson := Option (List RChild)

/-- The per-comment projection applied by `fetchPostComments`
(redditScraper.js lines 232-240). -/
def convComment (c : RChild) : CommentRec where
  id := c.data.id
  body := c.data.body
  author := c.data.author
  upvotes := jsOrInt c.data.score 0
  createdAt :=
    match c.data.created_utc with
    | some t => if t = 0 then none else some (t * 1000)
    | none => none

/-- Embedding of `fetchPostComments` (redditScraper.js lines 219-245).
A thrown fetch error is caught and yields `[]`; an `undefined` fetch result
makes `data[1]` throw a TypeError, caught by the same `catch`, also `[]`. -/
def fetchPostComments (rs : Nat → Resp CommentsJson) : List CommentRec :=
  match (fetchRedditJson rs).result with
  | .thrown _ => []
  | .undef => []
  | .success none => []
  | .success (some children) =>
      ((children.filter (fun c => c.kind == "t1")).take 10).map convComment

/-- One discovered community, tagged with its relevance
(`"primary"` or `"secondary"`). -/
structure Sub where
  name : String
  relevance : String
  deriving Repr, DecidableEq

/-- Output of subreddit discovery: candidate communities plus search terms. -/
structure Discovery where
  subreddits : List Sub
  searchTerms : List String
  deriving Repr, DecidableEq

/-- Modelled from the spec: `quickDiscoverSubreddits` lives in
src/analysis/subredditDiscovery.js, which is not included under src/.
Section 4.1 of the design describes it as a deterministic heuristic lookup
with no external call, returning candidate communities tagged
primary/secondary plus search terms.  Any total deterministic function of
the company name is faithful to those words; we use the company's own
community as the primary candidate and the company name as the search term. -/
def quickDiscoverSubreddits (companyName : String) : Discovery :=
  ⟨[⟨strToLower companyName, "primary"⟩], [companyName]⟩

/-- One entry of `subredditResults`: the success shape is
`{total, relevant, relevance}` (no `error` key) and the catch shape is
`{total: 0, relevant: 0, error}` (no `relevance` key). -/
structure SubResult where
  total : Nat
  relevant : Nat
  relevance : Option String
  error : Option String
  deriving Repr, DecidableEq

/-- A post as pushed onto `allMentions` by `smartScrape`: the spread
`{...post, companyName, discoveredSubreddit: true, subredditRelevance}`. -/
structure TaggedPost where
  post : FeedbackRecord
  discoveredSubreddit : Bool
  subredditRelevance : String
  deriving Repr, DecidableEq

/-- The tagging spread applied to each kept post (redditScraper.js lines
370-375); it overwrites the record's `companyName`. -/
def tagPost (companyName relevance : String) (p : FeedbackRecord) : TaggedPost :=
  ⟨{ p with companyName := companyName }, true, relevance⟩

/-- One iteration of `smartScrape`'s per-subreddit loop (redditScraper.js
lines 342-385): fetch the subreddit's posts, apply the secondary-relevance
filter, and build the `subredditResults` entry.  `fetchSubredditPosts`
catches every fetch failure internally and returns the posts collected so
far, so the surrounding `try`/`catch` in `smartScrape` never fires on a
fetch failure and the entry built here never carries an `error`. -/
def scrapeOneSub (po : PageOracle) (now windowStart : Int)
    (searchTerms : List String) (companyName : String)
    (maxItemsPerSubreddit : Nat) (filterSecondary : Bool) (sub : Sub) :
    List TaggedPost × SubResult :=
  let posts := fetchSubredditPosts po now windowStart sub.name maxItemsPerSubreddit
  let relevantPosts :=
    if filterSecondary && sub.relevance == "secondary" then
      posts.filter (fun p => isRelevantPost p searchTerms)
    else posts
  (relevantPosts.map (tagPost companyName sub.relevance),
   ⟨posts.length, relevantPosts.length, some sub.relevance, none⟩)

/-- The per-subreddit loop of `smartScrape` over the discovered list:
accumulates `allMentions` (in order) and the `subredditResults` map,
modelled as an association list in insertion order.  `spo` supplies the page
oracle of each subreddit by name. -/
def smartScrapeSubs (spo : String → PageOracle) (now windowStart : Int)
    (searchTerms : List String) (companyName : String)
    (maxItemsPerSubreddit : Nat) (filterSecondary : Bool) :
    List Sub → List TaggedPost × List (String × SubResult)
  | [] => ([], [])
  | sub :: rest =>
    let step := scrapeOneSub (spo sub.name) now windowStart searchTerms
      companyName maxItemsPerSubreddit filterSecondary sub
    let tail := smartScrapeSubs spo now windowStart searchTerms companyName
      maxItemsPerSubreddit filterSecondary rest
    (step.1 ++ tail.1, (sub.name, step.2) :: tail.2)

/-- What `smartScrape` returns besides `discovery`: either the reddit-wide
fallback search (taken when discovery finds no subreddits) or the
per-subreddit scrape. -/
inductive ScrapeOutcome where
  | wide (mentions : List FeedbackRecord)
  | scraped (mentions : List TaggedPost)
      (subredditResults : List (String × SubResult))
  deriving Repr, DecidableEq

/-- The full result object of `smartScrape`. -/
structure SmartScrapeResult where
  discovery : Discovery
  outcome : ScrapeOutcome
  deriving Repr, DecidableEq

/-- Embedding of `smartScrape` (redditScraper.js lines 298-394).
Discovery: when `useQuickDiscovery` is set or no API key is present, the
heuristic runs directly; otherwise the LLM discovery (whose outcome is the
oracle `llm`) is attempted and any failure is caught locally, falling back
to the heuristic.  An empty discovery falls back to a reddit-wide
`fetchRedditMentions` search with `maxItems = 50` (whose failures
propagate); otherwise each discovered subreddit is scraped in turn. -/
def smartScrape (spo : String → PageOracle) (widePo : PageOracle)
    (now windowStart : Int) (companyName : String)
    (useQuickDiscovery : Bool) (hasApiKey : Bool)
    (llm : Except String Discovery) (maxItemsPerSubreddit : Nat := 100)
    (filterSecondary : Bool := true) : Except String SmartScrapeResult :=
  let discovery :=
    if useQuickDiscovery || !hasApiKey then quickDiscoverSubreddits companyName
    else
      match llm with
      | .ok d => d
      | .error _ => quickDiscoverSubreddits companyName
  if discovery.subreddits.isEmpty then
    (fetchRedditMentions widePo now windowStart companyName 50).map
      (fun mentions => ⟨⟨[], [companyName]⟩, .wide mentions⟩)
  else
    let run := smartScrapeSubs spo now windowStart discovery.searchTerms
      companyName maxItemsPerSubreddit filterSecondary discovery.subreddits
    .ok ⟨discovery, .scraped run.1 run.2⟩

/-- Modelled from the spec: no executable Impact-Score computation ships
under src/ — the formula appears only in the README
(`Impact = (Reach × 0.4) + (Sentiment × 0.3) + (Velocity × 0.3)`,
src/unnamed/part_001) and in the dashboard type declarations
(`ImpactBreakdown`, src/unnamed/part_004); the score itself is produced by
the external synthesizer.  Section 3 of the design fixes
`score = reach·0.4 + sentiment·0.3 + velocity·0.3`, clamped to `[0, 10]`,
over exact arithmetic. -/
def impactScore (reach sentiment velocity : ℚ) : ℚ :=
  min 10 (max 0 (reach * 0.4 + sentiment * 0.3 + velocity * 0.3))

/-! Concrete inputs used by witnesses and counterexamples. -/

/-- A raw item with every optional field absent. -/
def emptyRawPost : RawPost :=
  ⟨"e1", none, none, none, none, none, none, "sub", none, none, none, none,
    none, none⟩

/-- A minimal in-window raw post: id, title, body, timestamp. -/
def mkPost (id title body : String) (t : Int) : RawPost :=
  ⟨id, none, some ("/r/x/" ++ id), some title, some body, none, some "u", "x",
    some 1, none, some 0, none, none, some t⟩

/-- A single full page (cursor present) followed by pages with a missing
`data` field. -/
def w1Oracle : PageOracle := fun i _ =>
  if i = 0 then .ok (some ⟨[mkPost "1" "A" "" 100, mkPost "2" "B" "" 50], some "c0"⟩)
  else .ok none

/-- Page 0: two in-window posts and a cursor; page 1: one in-window post,
no cursor.  With `maxItems = 25` the page budget is 1, so page 1 is never
fetched. -/
def c5Oracle : PageOracle := fun i _ =>
  if i = 0 then .ok (some ⟨[mkPost "1" "A" "" 100, mkPost "2" "B" "" 50], some "cursor"⟩)
  else .ok (some ⟨[mkPost "3" "C" "" 80], none⟩)

/-- Page 0: posts entirely outside the window (timestamp 0 < windowStart 1)
with a cursor; page 1: one in-window post, no cursor. -/
def c5OracleB : PageOracle := fun i _ =>
  if i = 0 then .ok (some ⟨[mkPost "1" "old" "" 0, mkPost "2" "older" "" 0], some "k"⟩)
  else .ok (some ⟨[mkPost "3" "fresh" "" 70], none⟩)

/-- Ten in-window posts, of which exactly three mention the search term
"Acme" (in varying case) in title or body. -/
def c2Posts : List RawPost :=
  [ mkPost "1" "I love Acme" "great product" 100
  , mkPost "2" "random chatter" "nothing here" 100
  , mkPost "3" "daily thread" "talking about acme today" 100
  , mkPost "4" "help needed" "my printer broke" 100
  , mkPost "5" "ACME rocks" "" 100
  , mkPost "6" "weather" "sunny" 100
  , mkPost "7" "sports" "game tonight" 100
  , mkPost "8" "cooking" "pasta recipe" 100
  , mkPost "9" "music" "new album" 100
  , mkPost "10" "travel" "trip report" 100 ]

/-- One page containing the ten posts above, no further pages. -/
def c2Oracle : PageOracle := fun i _ =>
  if i = 0 then .ok (some ⟨c2Posts, none⟩) else .ok none

/-- A secondary-relevance source. -/
def c2Sub : Sub := ⟨"gadgets", "secondary"⟩

/-- An attempt oracle whose every answer is HTTP 429. -/
def allRateSpo : String → PageOracle := fun _ _ _ => .rate

/-- A comments response with one comment child (`t1`) and one post child
(`t3`). -/
def commentChildren : List RChild :=
  [⟨"t1", mkPost "c1" "" "nice point" 100⟩, ⟨"t3", mkPost "p1" "a post" "" 100⟩]

/-- Oracle delivering `commentChildren` on the first attempt. -/
def commentsOracle : Nat → Resp CommentsJson := fun _ => .ok (some commentChildren)

/-- A single primary subreddit list for the C9 witness. -/
def c9Subs : List Sub := [⟨"apple", "primary"⟩, ⟨"gadgets", "secondary"⟩]

/-- Page oracle for the C9 witness: r/apple returns two in-window posts,
r/gadgets returns the ten `c2Posts`. -/
def c9Spo : String → PageOracle := fun name i _ =>
  if name = "apple" then
    if i = 0 then .ok (some ⟨[mkPost "a1" "Acme tips" "" 90, mkPost "a2" "other" "" 80], none⟩)
    else .ok none
  else
    if i = 0 then .ok (some ⟨c2Posts, none⟩) else .ok none

/-! ## Theorems -/

/-- C3: when a page request is answered with the HTTP rate-limit status on
exactly the first two attempts and succeeds on the third, `fetchRedditJson`
(at its default bound of 3 attempts) retries exactly twice — three attempts
in all — sleeps the fixed 30000 ms cool-down before each of the two retries,
and returns the successful page's JSON rather than raising an error. -/
theorem fetchRedditJson_rate_twice_then_ok {α : Type} (j : α) :
    fetchRedditJson (fun i => if i ≤ 2 then Resp.rate else Resp.ok j) 3
      = ⟨.success j, [30000, 30000], 3⟩ := rfl

/-- C7: the Impact Score always lies in the clamp interval [0, 10], agrees
with the raw weighted sum reach·0.4 + sentiment·0.3 + velocity·0.3 whenever
that sum is already in range, and the sub-scores reach = 8, sentiment = 6,
velocity = 4 yield exactly 6.2. -/
theorem impactScore_formula :
    (∀ r s v : ℚ, 0 ≤ impactScore r s v ∧ impactScore r s v ≤ 10) ∧
    (∀ r s v : ℚ, 0 ≤ r * 0.4 + s * 0.3 + v * 0.3 →
      r * 0.4 + s * 0.3 + v * 0.3 ≤ 10 →
      impactScore r s v = r * 0.4 + s * 0.3 + v * 0.3) ∧
    impactScore 8 6 4 = 6.2 := by
  refine ⟨fun r s v => ⟨?_, ?_⟩, fun r s v h0 h10 => ?_, ?_⟩
  · exact le_min (by norm_num) (le_max_left 0 _)
  · exact min_le_left _ _
  · rw [impactScore, max_eq_right h0, min_eq_right (by simpa [max_eq_right h0] using h10)]
  · norm_num [impactScore]

/-- Witness for `impactScore_formula`: at reach = 8, sentiment = 6,
velocity = 4 the raw sum is in range and the identity applies. -/
theorem impactScore_formula_witness :
    (0 ≤ (8 : ℚ) * 0.4 + 6 * 0.3 + 4 * 0.3) ∧
    ((8 : ℚ) * 0.4 + 6 * 0.3 + 4 * 0.3 ≤ 10) ∧
    impactScore 8 6 4 = (8 : ℚ) * 0.4 + 6 * 0.3 + 4 * 0.3 :=
  ⟨by norm_num, by norm_num,
    impactScore_formula.2.1 8 6 4 (by norm_num) (by norm_num)⟩

/-- C8: a failing LLM-assisted discovery call never propagates out of
`smartScrape`: with any failure message the run is identical to the run that
uses the deterministic heuristic discovery directly, for every oracle,
option setting and API-key state. -/
theorem smartScrape_llm_failure_degrades (spo : String → PageOracle)
    (widePo : PageOracle) (now windowStart : Int) (companyName msg : String)
    (hasApiKey : Bool) (llm2 : Except String Discovery) (maxI : Nat)
    (fSec : Bool) :
    smartScrape spo widePo now windowStart companyName false true
        (.error msg) maxI fSec
      = smartScrape spo widePo now windowStart companyName true hasApiKey
          llm2 maxI fSec := rfl

/-- C6: `normalizeRedditItem` is a total function of its inputs alone (its
embedding performs no I/O; the wall-clock read for `scrapedAt` is the
explicit `now` parameter) and substitutes the documented defaults for every
missing optional field: null title, "[deleted]" author, empty body,
permalink-derived URL, zero counters, null ratio, flair and timestamp; it
always stamps `source = "reddit"`, the company name, the empty analysis slot
and the empty comments list. -/
theorem normalizeRedditItem_defaults (now : Int) (item : RawPost) (c : String) :
    (item.title = none → (normalizeRedditItem now item c).title = none) ∧
    (item.author = none → (normalizeRedditItem now item c).author = "[deleted]") ∧
    (item.selftext = none → item.body = none →
      (normalizeRedditItem now item c).body = "") ∧
    (∀ p, item.url = none → item.permalink = some p →
      (normalizeRedditItem now item c).sourceUrl = "https://reddit.com" ++ p) ∧
    (item.url = none → item.permalink = none →
      (normalizeRedditItem now item c).sourceUrl = "https://reddit.comundefined") ∧
    (item.score = none → item.ups = none →
      (normalizeRedditItem now item c).upvotes = 0) ∧
    (item.num_comments = none → (normalizeRedditItem now item c).commentCount = 0) ∧
    (item.upvote_ratio = none → (normalizeRedditItem now item c).upvoteRatio = none) ∧
    (item.link_flair_text = none → (normalizeRedditItem now item c).flair = none) ∧
    (item.created_utc = none → (normalizeRedditItem now item c).createdAt = none) ∧
    (normalizeRedditItem now item c).source = "reddit" ∧
    (normalizeRedditItem now item c).companyName = c ∧
    (normalizeRedditItem now item c).analysis = ⟨none, none, none, none, none⟩ ∧
    (normalizeRedditItem now item c).comments = [] := by
  refine ⟨fun h => ?_, fun h => ?_, fun h h2 => ?_, fun p h h2 => ?_,
    fun h h2 => ?_, fun h h2 => ?_, fun h => ?_, fun h => ?_, fun h => ?_,
    fun h => ?_, rfl, rfl, rfl, rfl⟩ <;>
    simp [normalizeRedditItem, jsToNullStr, jsOrStr, jsOrInt, jsToNullRat,
      jsTemplate, h]
  · simp [h2]
  · simp [h2]
  · simp [h2]
  · simp [h2]

/-- Witness for `normalizeRedditItem_defaults`: the fully-empty raw item
receives every default. -/
theorem normalizeRedditItem_defaults_witness :
    (normalizeRedditItem 0 emptyRawPost "Acme").title = none ∧
    (normalizeRedditItem 0 emptyRawPost "Acme").author = "[deleted]" ∧
    (normalizeRedditItem 0 emptyRawPost "Acme").body = "" ∧
    (normalizeRedditItem 0 emptyRawPost "Acme").sourceUrl
      = "https://reddit.comundefined" ∧
    (normalizeRedditItem 0 emptyRawPost "Acme").upvotes = 0 ∧
    (normalizeRedditItem 0 emptyRawPost "Acme").commentCount = 0 ∧
    (normalizeRedditItem 0 emptyRawPost "Acme").upvoteRatio = none ∧
    (normalizeRedditItem 0 emptyRawPost "Acme").flair = none ∧
    (normalizeRedditItem 0 emptyRawPost "Acme").createdAt = none ∧
    (normalizeRedditItem 0 emptyRawPost "Acme").companyName = "Acme" := by
  obtain ⟨h1, h2, h3, _, h5, h6, h7, h8, h9, h10, _, h12, _, _⟩ :=
    normalizeRedditItem_defaults 0 emptyRawPost "Acme"
  exact ⟨h1 rfl, h2 rfl, h3 rfl rfl, h5 rfl rfl, h6 rfl rfl, h7 rfl,
    h8 rfl, h9 rfl, h10 rfl, h12⟩

/-- C10: `fetchPostComments` returns at most 10 comments; on a successful
fetch every returned element is the projection of a response child of kind
"t1" (a comment, never a post); and a thrown fetch error, an `undefined`
fetch result, or a response without a comments listing each yield the empty
list rather than an error. -/
theorem fetchPostComments_spec (rs : Nat → Resp CommentsJson) :
    (fetchPostComments rs).length ≤ 10 ∧
    (∀ children, (fetchRedditJson rs).result = .success (some children) →
      ∀ c ∈ fetchPostComments rs,
        ∃ ch ∈ children, ch.kind = "t1" ∧ c = convComment ch) ∧
    (∀ msg, (fetchRedditJson rs).result = .thrown msg →
      fetchPostComments rs = []) ∧
    ((fetchRedditJson rs).result = .undef → fetchPostComments rs = []) ∧
    ((fetchRedditJson rs).result = .success none → fetchPostComments rs = []) := by
  cases h : (fetchRedditJson rs).result with
  | success a =>
    cases a with
    | none =>
      refine ⟨?_, fun children hc => ?_, fun msg hm => ?_, fun hu => ?_, fun _ => ?_⟩ <;>
        simp_all [fetchPostComments]
    | some children =>
      refine ⟨?_, fun cs hc c hmem => ?_, fun msg hm => ?_, fun hu => ?_, fun hn => ?_⟩
      · simp only [fetchPostComments, h, List.length_map, List.length_take]
        exact le_trans (Nat.min_le_left _ _) (le_refl 10)
      · rw [FetchRes.success.injEq, Option.some.injEq] at hc
        subst hc
        simp only [fetchPostComments, h, List.mem_map] at hmem
        obtain ⟨ch, hch, hconv⟩ := hmem
        have hch2 := List.take_subset 10 _ hch
        rw [List.mem_filter] at hch2
        exact ⟨ch, hch2.1, by simpa using hch2.2, hconv.symm⟩
      · cases hm
      · cases hu
      · simp at hn
  | undef =>
    refine ⟨?_, fun children hc => ?_, fun msg hm => ?_, fun hu => ?_, fun hn => ?_⟩ <;>
      simp_all [fetchPostComments]
  | thrown msg =>
    refine ⟨?_, fun children hc => ?_, fun m hm => ?_, fun hu => ?_, fun hn => ?_⟩ <;>
      simp_all [fetchPostComments]

/-- Witness for `fetchPostComments_spec`: on a response holding one comment
child and one post child, every returned element traces back to the lone
"t1" child. -/
theorem fetchPostComments_spec_witness :
    (fetchRedditJson commentsOracle).result = .success (some commentChildren) ∧
    ∀ c ∈ fetchPostComments commentsOracle,
      ∃ ch ∈ commentChildren, ch.kind = "t1" ∧ c = convComment ch :=
  ⟨rfl, (fetchPostComments_spec commentsOracle).2.1 commentChildren rfl⟩

/-- A raw item passing the time-window test normalizes to a record whose
`createdAt` (epoch ms) is at or after the window start, provided the window
start is a positive epoch second. -/
theorem normalize_inWindow_createdAt (now windowStart : Int) (name : String)
    (hw : 0 < windowStart) (p : RawPost) (hp : inWindow windowStart p = true) :
    ∃ t, (normalizeRedditItem now p name).createdAt = some t ∧
      windowStart * 1000 ≤ t := by
  unfold inWindow at hp
  cases hc : p.created_utc with
  | none => rw [hc] at hp; cases hp
  | some t =>
    rw [hc] at hp
    have ht : windowStart ≤ t := of_decide_eq_true hp
    refine ⟨t * 1000, ?_, by nlinarith⟩
    have hne : ¬ t = 0 := by omega
    simp [normalizeRedditItem, hc, hne]

/-- Every record accumulated by the `fetchSubredditPosts` pagination loop
satisfies any property that holds of the initial accumulator and of every
normalized in-window item. -/
theorem fetchSubredditGo_acc_forall (po : PageOracle) (now windowStart : Int)
    (name : String) (maxItems : Nat) (P : FeedbackRecord → Prop)
    (hP : ∀ p : RawPost, inWindow windowStart p = true →
      P (normalizeRedditItem now p name)) :
    ∀ fuel fetchCount acc, (∀ r ∈ acc, P r) →
      ∀ r ∈ (fetchSubredditGo po now windowStart name maxItems fetchCount
        acc fuel).acc, P r := by
  intro fuel
  induction fuel with
  | zero => exact fun fetchCount acc hacc r hr => hacc r hr
  | succ n ih =>
    intro fetchCount acc hacc r hr
    have hacc2 : ∀ l : Listing,
        ∀ r ∈ acc ++ pageItems now windowStart name l, P r := by
      intro l r' hr'
      rcases List.mem_append.mp hr' with hin | hin
      · exact hacc r' hin
      · obtain ⟨p, hpmem, hpeq⟩ := List.mem_map.mp hin
        rw [List.mem_filter] at hpmem
        exact hpeq ▸ hP p hpmem.2
    rw [fetchSubredditGo] at hr
    split at hr
    · exact hacc r hr
    · split at hr
      · exact hacc r hr
      · exact hacc r hr
      · exact hacc r hr
      · split at hr
        · exact hacc r hr
        · split at hr
          · exact hacc2 _ r hr
          · exact ih (fetchCount + 1) _ (hacc2 _) r hr

/-- Every raw post accumulated by the `fetchRedditMentions` pagination loop
passes the time-window test, provided the initial accumulator does. -/
theorem fetchMentionsGo_acc_window (po : PageOracle) (windowStart : Int)
    (maxItems : Nat) :
    ∀ fuel fetchCount acc, (∀ p ∈ acc, inWindow windowStart p = true) →
      ∀ out, fetchMentionsGo po windowStart maxItems fetchCount acc fuel
          = .ok out →
        ∀ p ∈ out.acc, inWindow windowStart p = true := by
  intro fuel
  induction fuel with
  | zero =>
    intro fetchCount acc hacc out hout p hp
    cases hout
    exact hacc p hp
  | succ n ih =>
    intro fetchCount acc hacc out hout p hp
    have hacc2 : ∀ l : Listing,
        ∀ p ∈ acc ++ l.children.filter (inWindow windowStart),
          inWindow windowStart p = true := by
      intro l p' hp'
      rcases List.mem_append.mp hp' with hin | hin
      · exact hacc p' hin
      · exact (List.mem_filter.mp hin).2
    rw [fetchMentionsGo] at hout
    split at hout
    · cases hout; exact hacc p hp
    · split at hout
      · cases hout
      · cases hout
      · cases hout; exact hacc p hp
      · split at hout
        · cases hout; exact hacc p hp
        · split at hout
          · cases hout; exact hacc2 _ p hp
          · exact ih (fetchCount + 1) _ (hacc2 _) out hout p hp

/-- C1: both collectors return at most `maxItems` records, and (for a
positive window start) every returned record carries a `createdAt` timestamp
at or after the window start — `fetchSubredditPosts` unconditionally, and
`fetchRedditMentions` whenever it returns successfully. -/
theorem collector_bounds (po po2 : PageOracle) (now windowStart : Int)
    (name companyName : String) (maxItems m2 : Nat) (hw : 0 < windowStart) :
    ((fetchSubredditPosts po now windowStart name maxItems).length ≤ maxItems ∧
      ∀ r ∈ fetchSubredditPosts po now windowStart name maxItems,
        ∃ t, r.createdAt = some t ∧ windowStart * 1000 ≤ t) ∧
    ∀ mentions,
      fetchRedditMentions po2 now windowStart companyName m2 = .ok mentions →
      mentions.length ≤ m2 ∧
      ∀ r ∈ mentions, ∃ t, r.createdAt = some t ∧ windowStart * 1000 ≤ t := by
  constructor
  · constructor
    · exact (List.length_take_le _ _)
    · intro r hr
      have hr2 := List.take_subset _ _ hr
      exact fetchSubredditGo_acc_forall po now windowStart name maxItems
        (fun r => ∃ t, r.createdAt = some t ∧ windowStart * 1000 ≤ t)
        (normalize_inWindow_createdAt now windowStart name hw)
        (maxFetchesFor maxItems) 0 [] (by simp) r hr2
  · intro mentions hment
    unfold fetchRedditMentions at hment
    cases hgo : fetchMentionsGo po2 windowStart m2 0 [] (maxFetchesFor m2) with
    | error e => rw [hgo] at hment; cases hment
    | ok out =>
      rw [hgo] at hment
      cases hment
      constructor
      · simp only [List.length_map]
        exact List.length_take_le _ _
      · intro r hr
        obtain ⟨p, hpmem, hpeq⟩ := List.mem_map.mp hr
        have hpacc := List.take_subset _ _ hpmem
        have hwin := fetchMentionsGo_acc_window po2 windowStart m2
          (maxFetchesFor m2) 0 [] (by simp) out hgo p hpacc
        exact hpeq ▸ normalize_inWindow_createdAt now windowStart companyName
          hw p hwin

/-- Witness for `collector_bounds`: the window start 1 is positive and the
bounds hold at the concrete one-page oracle. -/
theorem collector_bounds_witness :
    (0 : Int) < 1 ∧
    (((fetchSubredditPosts w1Oracle 0 1 "s" 25).length ≤ 25 ∧
      ∀ r ∈ fetchSubredditPosts w1Oracle 0 1 "s" 25,
        ∃ t, r.createdAt = some t ∧ (1 : Int) * 1000 ≤ t) ∧
    ∀ mentions, fetchRedditMentions w1Oracle 0 1 "Acme" 25 = .ok mentions →
      mentions.length ≤ 25 ∧
      ∀ r ∈ mentions, ∃ t, r.createdAt = some t ∧ (1 : Int) * 1000 ≤ t) :=
  ⟨by decide, collector_bounds w1Oracle w1Oracle 0 1 "s" "Acme" 25 25 (by decide)⟩

/-- Stop-cause characterization of the `fetchSubredditPosts` pagination
loop, generalized over the starting state: a `budget` stop means the page
counter hit `fetchCount + fuel` or the item bound was reached; the other
three causes each pin down the outcome of the fetch that stopped the loop. -/
theorem fetchSubredditGo_stop (po : PageOracle) (now windowStart : Int)
    (name : String) (maxItems : Nat) :
    ∀ fuel fetchCount acc out,
      fetchSubredditGo po now windowStart name maxItems fetchCount acc fuel
          = out →
      (out.cause = .budget →
        out.fetchCount = fetchCount + fuel ∨ maxItems ≤ out.acc.length) ∧
      (out.cause = .fetchFailed →
        (fetchRedditJson (po out.fetchCount)).result = .undef ∨
        ∃ msg, (fetchRedditJson (po out.fetchCount)).result = .thrown msg) ∧
      (out.cause = .emptyPage →
        (fetchRedditJson (po out.fetchCount)).result = .success none ∨
        ∃ l, (fetchRedditJson (po out.fetchCount)).result = .success (some l) ∧
          l.children = []) ∧
      (out.cause = .noCursor →
        ∃ l, (fetchRedditJson (po (out.fetchCount - 1))).result
            = .success (some l) ∧ l.after = none) := by
  intro fuel
  induction fuel with
  | zero =>
    intro fetchCount acc out hout
    rw [fetchSubredditGo] at hout
    cases hout
    exact ⟨fun _ => Or.inl rfl, fun h => by simp at h, fun h => by simp at h,
      fun h => by simp at h⟩
  | succ n ih =>
    intro fetchCount acc out hout
    rw [fetchSubredditGo] at hout
    split at hout
    next hlen =>
      cases hout
      exact ⟨fun _ => Or.inr hlen, fun h => by simp at h,
        fun h => by simp at h, fun h => by simp at h⟩
    next hlen =>
      split at hout
      next msg heq =>
        cases hout
        exact ⟨fun h => by simp at h, fun _ => Or.inr ⟨msg, heq⟩,
          fun h => by simp at h, fun h => by simp at h⟩
      next heq =>
        cases hout
        exact ⟨fun h => by simp at h, fun _ => Or.inl heq,
          fun h => by simp at h, fun h => by simp at h⟩
      next heq =>
        cases hout
        exact ⟨fun h => by simp at h, fun h => by simp at h,
          fun _ => Or.inl heq, fun h => by simp at h⟩
      next l heq =>
        split at hout
        next hemp =>
          cases hout
          refine ⟨fun h => by simp at h, fun h => by simp at h,
            fun _ => Or.inr ⟨l, heq, ?_⟩, fun h => by simp at h⟩
          simpa using hemp
        next hemp =>
          split at hout
          next hafter =>
            cases hout
            refine ⟨fun h => by simp at h, fun h => by simp at h,
              fun h => by simp at h, fun _ => ⟨l, ?_, hafter⟩⟩
            simpa using heq
          next cur hafter =>
            have hrec := ih (fetchCount + 1) _ out hout
            refine ⟨fun h => ?_, hrec.2.1, hrec.2.2.1, hrec.2.2.2⟩
            rcases hrec.1 h with h1 | h1
            · exact Or.inl (by omega)
            · exact Or.inr h1

/-- Stop-cause characterization of the `fetchRedditMentions` pagination
loop on its success path: it never stops with `fetchFailed` (fetch failures
propagate as errors instead), and the remaining causes mirror those of the
`fetchSubredditPosts` loop. -/
theorem fetchMentionsGo_stop (po : PageOracle) (windowStart : Int)
    (maxItems : Nat) :
    ∀ fuel fetchCount acc out,
      fetchMentionsGo po windowStart maxItems fetchCount acc fuel = .ok out →
      (out.cause = .budget →
        out.fetchCount = fetchCount + fuel ∨ maxItems ≤ out.acc.length) ∧
      out.cause ≠ .fetchFailed ∧
      (out.cause = .emptyPage →
        (fetchRedditJson (po out.fetchCount)).result = .success none ∨
        ∃ l, (fetchRedditJson (po out.fetchCount)).result = .success (some l) ∧
          l.children = []) ∧
      (out.cause = .noCursor →
        ∃ l, (fetchRedditJson (po (out.fetchCount - 1))).result
            = .success (some l) ∧ l.after = none) := by
  intro fuel
  induction fuel with
  | zero =>
    intro fetchCount acc out hout
    rw [fetchMentionsGo] at hout
    cases hout
    exact ⟨fun _ => Or.inl rfl, fun h => by simp at h, fun h => by simp at h,
      fun h => by simp at h⟩
  | succ n ih =>
    intro fetchCount acc out hout
    rw [fetchMentionsGo] at hout
    split at hout
    next hlen =>
      cases hout
      exact ⟨fun _ => Or.inr hlen, fun h => by simp at h,
        fun h => by simp at h, fun h => by simp at h⟩
    next hlen =>
      split at hout
      next msg heq => cases hout
      next heq => cases hout
      next heq =>
        cases hout
        exact ⟨fun h => by simp at h, fun h => by simp at h,
          fun _ => Or.inl heq, fun h => by simp at h⟩
      next l heq =>
        split at hout
        next hemp =>
          cases hout
          refine ⟨fun h => by simp at h, fun h => by simp at h,
            fun _ => Or.inr ⟨l, heq, ?_⟩, fun h => by simp at h⟩
          simpa using hemp
        next hemp =>
          split at hout
          next hafter =>
            cases hout
            refine ⟨fun h => by simp at h, fun h => by simp at h,
              fun h => by simp at h, fun _ => ⟨l, ?_, hafter⟩⟩
            simpa using heq
          next cur hafter =>
            have hrec := ih (fetchCount + 1) _ out hout
            refine ⟨fun h => ?_, hrec.2.1, hrec.2.2.1, hrec.2.2.2⟩
            rcases hrec.1 h with h1 | h1
            · exact Or.inl (by omega)
            · exact Or.inr h1

/-- C5 (amended): the pagination loops of `fetchSubredditPosts` and
`fetchRedditMentions` stop exactly under one of four conditions — the page
budget `ceil(maxItems/25)` is used up or `maxItems` items were already
accumulated (`budget`), the fetch that would produce the next page failed
(`fetchFailed`, which in `fetchRedditMentions` propagates as an error
instead of a stop), the fetched page is malformed or empty (`emptyPage`),
or the fetched page's cursor is absent (`noCursor`) — and each recorded
cause entails the corresponding condition.  No stop cause refers to the
time window: out-of-window items are filtered out, but pagination
continues. -/
theorem fetchSubredditLoop_stop_conditions (po po2 : PageOracle)
    (now windowStart windowStart2 : Int) (name : String) (maxItems m2 : Nat) :
    ((fetchSubredditLoop po now windowStart name maxItems).cause = .budget →
      (fetchSubredditLoop po now windowStart name maxItems).fetchCount
          = maxFetchesFor maxItems ∨
      maxItems ≤ (fetchSubredditLoop po now windowStart name maxItems).acc.length) ∧
    ((fetchSubredditLoop po now windowStart name maxItems).cause = .fetchFailed →
      (fetchRedditJson (po (fetchSubredditLoop po now windowStart name
          maxItems).fetchCount)).result = .undef ∨
      ∃ msg, (fetchRedditJson (po (fetchSubredditLoop po now windowStart name
          maxItems).fetchCount)).result = .thrown msg) ∧
    ((fetchSubredditLoop po now windowStart name maxItems).cause = .emptyPage →
      (fetchRedditJson (po (fetchSubredditLoop po now windowStart name
          maxItems).fetchCount)).result = .success none ∨
      ∃ l, (fetchRedditJson (po (fetchSubredditLoop po now windowStart name
          maxItems).fetchCount)).result = .success (some l) ∧ l.children = []) ∧
    ((fetchSubredditLoop po now windowStart name maxItems).cause = .noCursor →
      ∃ l, (fetchRedditJson (po ((fetchSubredditLoop po now windowStart name
          maxItems).fetchCount - 1))).result = .success (some l) ∧
        l.after = none) ∧
    ∀ out, fetchMentionsGo po2 windowStart2 m2 0 [] (maxFetchesFor m2)
        = .ok out →
      (out.cause = .budget →
        out.fetchCount = maxFetchesFor m2 ∨ m2 ≤ out.acc.length) ∧
      out.cause ≠ .fetchFailed ∧
      (out.cause = .emptyPage →
        (fetchRedditJson (po2 out.fetchCount)).result = .success none ∨
        ∃ l, (fetchRedditJson (po2 out.fetchCount)).result
            = .success (some l) ∧ l.children = []) ∧
      (out.cause = .noCursor →
        ∃ l, (fetchRedditJson (po2 (out.fetchCount - 1))).result
            = .success (some l) ∧ l.after = none) := by
  have h := fetchSubredditGo_stop po now windowStart name maxItems
    (maxFetchesFor maxItems) 0 [] _ rfl
  have hm := fetchMentionsGo_stop po2 windowStart2 m2 (maxFetchesFor m2) 0 []
  refine ⟨?_, ?_, ?_, ?_, ?_⟩
  · simpa [fetchSubredditLoop] using h.1
  · simpa [fetchSubredditLoop] using h.2.1
  · simpa [fetchSubredditLoop] using h.2.2.1
  · simpa [fetchSubredditLoop] using h.2.2.2
  · intro out hout
    have := hm out hout
    simpa using this

/-- Witness for `fetchSubredditLoop_stop_conditions`: at the one-page oracle
both loops stop with cause `budget` and the disjunctions hold. -/
theorem fetchSubredditLoop_stop_conditions_witness :
    ((fetchSubredditLoop w1Oracle 0 1 "s" 25).cause = .budget ∧
      ((fetchSubredditLoop w1Oracle 0 1 "s" 25).fetchCount = maxFetchesFor 25 ∨
        25 ≤ (fetchSubredditLoop w1Oracle 0 1 "s" 25).acc.length)) ∧
    ∃ out, fetchMentionsGo w1Oracle 1 25 0 [] (maxFetchesFor 25) = .ok out ∧
      out.cause = .budget ∧
      (out.fetchCount = maxFetchesFor 25 ∨ 25 ≤ out.acc.length) := by
  have h := fetchSubredditLoop_stop_conditions w1Oracle w1Oracle 0 1 1 "s" 25 25
  refine ⟨⟨rfl, h.1 rfl⟩,
    ⟨⟨[mkPost "1" "A" "" 100, mkPost "2" "B" "" 50], 1, .budget⟩, rfl, rfl, ?_⟩⟩
  exact (h.2.2.2.2 _ rfl).1 rfl

/-- C5 counterexample: with `maxItems = 25` (page budget 1), oracle
`c5Oracle` answers page 0 with two in-window posts and a live cursor, yet
the loop stops after that single fetch — the cursor is present, fewer than
`maxItems` items were collected and every item of the page lies inside the
window, so none of the claim's conditions (a), (b), (c) holds.  Moreover
with oracle `c5OracleB` (page 0 entirely outside the window, cursor
present, `maxItems = 50`) the loop does not stop at page 0 but fetches page
1 as well, refuting the claimed time-window early exit (c). -/
theorem pagination_stop_counterexample :
    (fetchSubredditLoop c5Oracle 0 1 "s" 25).fetchCount = 1 ∧
    (fetchSubredditLoop c5Oracle 0 1 "s" 25).cause = .budget ∧
    (fetchSubredditLoop c5Oracle 0 1 "s" 25).acc.length = 2 ∧
    (2 : Nat) < 25 ∧
    (fetchRedditJson (c5Oracle 0)).result
      = .success (some ⟨[mkPost "1" "A" "" 100, mkPost "2" "B" "" 50],
          some "cursor"⟩) ∧
    ([mkPost "1" "A" "" 100, mkPost "2" "B" "" 50].all (inWindow 1)) = true ∧
    (fetchSubredditLoop c5OracleB 0 1 "s" 50).fetchCount = 2 ∧
    ([mkPost "1" "old" "" 0, mkPost "2" "older" "" 0].all
      (fun p => !(inWindow 1 p))) = true ∧
    (fetchRedditJson (c5OracleB 0)).result
      = .success (some ⟨[mkPost "1" "old" "" 0, mkPost "2" "older" "" 0],
          some "k"⟩) :=
  ⟨rfl, rfl, rfl, by norm_num, rfl, rfl, rfl, rfl, rfl⟩

/-- Shape of the pair built by one per-subreddit iteration of `smartScrape`:
the tagged mentions count equals the recorded `relevant`, `relevant` never
exceeds `total`, the entry carries the subreddit's relevance and no error,
and without the secondary filter `relevant` equals `total`. -/
theorem scrapeOneSub_entry (po : PageOracle) (now windowStart : Int)
    (terms : List String) (c : String) (maxI : Nat) (fSec : Bool) (sub : Sub) :
    (scrapeOneSub po now windowStart terms c maxI fSec sub).1.length
      = (scrapeOneSub po now windowStart terms c maxI fSec sub).2.relevant ∧
    (scrapeOneSub po now windowStart terms c maxI fSec sub).2.relevant
      ≤ (scrapeOneSub po now windowStart terms c maxI fSec sub).2.total ∧
    (scrapeOneSub po now windowStart terms c maxI fSec sub).2.relevance
      = some sub.relevance ∧
    (scrapeOneSub po now windowStart terms c maxI fSec sub).2.error = none ∧
    ((sub.relevance ≠ "secondary" ∨ fSec = false) →
      (scrapeOneSub po now windowStart terms c maxI fSec sub).2.relevant
        = (scrapeOneSub po now windowStart terms c maxI fSec sub).2.total) := by
  by_cases hb : (fSec && sub.relevance == "secondary") = true
  · have hrel : sub.relevance = "secondary" := by
      have := (Bool.and_eq_true _ _).mp hb
      exact eq_of_beq this.2
    have hfs : fSec = true := ((Bool.and_eq_true _ _).mp hb).1
    refine ⟨?_, ?_, ?_, ?_, ?_⟩
    · simp [scrapeOneSub, hb]
    · simp only [scrapeOneSub, hb, if_true]
      exact List.length_filter_le _ _
    · simp [scrapeOneSub, hb]
    · simp [scrapeOneSub, hb]
    · rintro (hc | hc)
      · exact absurd hrel hc
      · rw [hfs] at hc; cases hc
  · refine ⟨?_, ?_, ?_, ?_, ?_⟩ <;> simp [scrapeOneSub, hb]

/-- C2: in `smartScrape`'s per-subreddit step with secondary filtering
enabled, a source tagged `secondary` keeps exactly those collected posts
whose title+body contains at least one search term as a case-insensitive
substring (the `isRelevantPost` test) — the kept mentions are precisely the
filtered posts, tagged — and records the kept count in the entry's
`relevant` field, while a source not tagged `secondary` keeps every
collected post and records the full count. -/
theorem scrapeOneSub_secondary_filter (po : PageOracle) (now windowStart : Int)
    (searchTerms : List String) (companyName : String) (maxI : Nat) (sub : Sub) :
    (sub.relevance = "secondary" →
      (scrapeOneSub po now windowStart searchTerms companyName maxI true sub).1
        = ((fetchSubredditPosts po now windowStart sub.name maxI).filter
            (fun p => isRelevantPost p searchTerms)).map
            (tagPost companyName sub.relevance) ∧
      (scrapeOneSub po now windowStart searchTerms companyName maxI true
          sub).2.relevant
        = ((fetchSubredditPosts po now windowStart sub.name maxI).filter
            (fun p => isRelevantPost p searchTerms)).length ∧
      (scrapeOneSub po now windowStart searchTerms companyName maxI true
          sub).2.total
        = (fetchSubredditPosts po now windowStart sub.name maxI).length) ∧
    (sub.relevance ≠ "secondary" →
      (scrapeOneSub po now windowStart searchTerms companyName maxI true sub).1
        = (fetchSubredditPosts po now windowStart sub.name maxI).map
            (tagPost companyName sub.relevance) ∧
      (scrapeOneSub po now windowStart searchTerms companyName maxI true
          sub).2.relevant
        = (fetchSubredditPosts po now windowStart sub.name maxI).length) := by
  constructor
  · intro hsec
    have hb : (true && sub.relevance == "secondary") = true := by
      simp [hsec]
    refine ⟨?_, ?_, ?_⟩ <;> simp [scrapeOneSub, hb]
  · intro hsec
    have hb : (true && sub.relevance == "secondary") = false := by
      simp [hsec]
    refine ⟨?_, ?_⟩ <;> simp [scrapeOneSub, hb]

/-- Witness for `scrapeOneSub_secondary_filter`, realizing the spec's
scenario: the secondary source r/gadgets returns 10 posts of which exactly
3 mention "Acme"; precisely those 3 (ids 1, 3, 5) are kept and
`relevant = 3` while `total = 10`. -/
theorem scrapeOneSub_secondary_filter_witness :
    c2Sub.relevance = "secondary" ∧
    (scrapeOneSub c2Oracle 0 1 ["Acme"] "Acme" 100 true c2Sub).2.total = 10 ∧
    (scrapeOneSub c2Oracle 0 1 ["Acme"] "Acme" 100 true c2Sub).2.relevant = 3 ∧
    (scrapeOneSub c2Oracle 0 1 ["Acme"] "Acme" 100 true c2Sub).1.map
        (fun tp => tp.post.sourceId) = ["1", "3", "5"] := by
  have h := (scrapeOneSub_secondary_filter c2Oracle 0 1 ["Acme"] "Acme" 100
    c2Sub).1 rfl
  refine ⟨rfl, ?_, ?_, ?_⟩
  · rw [h.2.2]; rfl
  · rw [h.2.1]; rfl
  · rw [h.1]; rfl

/-- C9: across `smartScrape`'s per-subreddit loop, every error-free
`subredditResults` entry satisfies `relevant ≤ total`, with equality
whenever the entry's subreddit is not tagged secondary or secondary
filtering is disabled; the mentions list holds exactly as many posts as the
entries count relevant in total; and the mentions list is exactly the
concatenation, subreddit by subreddit in order, of that subreddit's
collected posts — filtered by `isRelevantPost` precisely when the subreddit
is secondary and filtering is enabled — tagged with the company name and
the subreddit's relevance. -/
theorem smartScrapeSubs_invariants (spo : String → PageOracle)
    (now windowStart : Int) (terms : List String) (companyName : String)
    (maxI : Nat) (fSec : Bool) (subs : List Sub) :
    (∀ e ∈ (smartScrapeSubs spo now windowStart terms companyName maxI fSec
        subs).2,
      e.2.error = none →
      e.2.relevant ≤ e.2.total ∧
      ((e.2.relevance ≠ some "secondary" ∨ fSec = false) →
        e.2.relevant = e.2.total)) ∧
    (smartScrapeSubs spo now windowStart terms companyName maxI fSec
        subs).1.length
      = ((smartScrapeSubs spo now windowStart terms companyName maxI fSec
          subs).2.map (fun e => e.2.relevant)).sum ∧
    (smartScrapeSubs spo now windowStart terms companyName maxI fSec subs).1
      = (subs.map (fun sub =>
          (if fSec && sub.relevance == "secondary" then
            (fetchSubredditPosts (spo sub.name) now windowStart sub.name
              maxI).filter (fun p => isRelevantPost p terms)
          else
            fetchSubredditPosts (spo sub.name) now windowStart sub.name
              maxI).map (tagPost companyName sub.relevance))).flatten := by
  induction subs with
  | nil => exact ⟨fun e he => absurd he (List.not_mem_nil e), rfl, rfl⟩
  | cons sub rest ih =>
    have hstep := scrapeOneSub_entry (spo sub.name) now windowStart terms
      companyName maxI fSec sub
    rw [smartScrapeSubs]
    refine ⟨?_, ?_, ?_⟩
    · intro e he herr
      rcases List.mem_cons.mp he with heq | hmem
      · subst heq
        refine ⟨hstep.2.1, fun hcond => ?_⟩
        refine hstep.2.2.2.2 ?_
        rcases hcond with hc | hc
        · left
          intro hrel
          exact hc (by rw [hstep.2.2.1, hrel])
        · right; exact hc
      · exact ih.1 e hmem herr
    · simp only [List.length_append, List.map_cons, List.sum_cons, ih.2.1,
        hstep.1]
    · rw [List.map_cons, List.flatten_cons, ← ih.2.2]
      rfl

/-- Witness for `smartScrapeSubs_invariants`: on the concrete two-subreddit
run, the error-free r/apple entry (not secondary) has `relevant = total`,
the 5 collected mentions equal the summed `relevant` counts 2 + 3, and the
mentions are exactly the two r/apple posts followed by the three relevant
r/gadgets posts (source ids a1, a2, 1, 3, 5). -/
theorem smartScrapeSubs_invariants_witness :
    ("apple", (⟨2, 2, some "primary", none⟩ : SubResult))
        ∈ (smartScrapeSubs c9Spo 0 1 ["Acme"] "Acme" 100 true c9Subs).2 ∧
    (⟨2, 2, some "primary", none⟩ : SubResult).relevant
        ≤ (⟨2, 2, some "primary", none⟩ : SubResult).total ∧
    (⟨2, 2, some "primary", none⟩ : SubResult).relevant
        = (⟨2, 2, some "primary", none⟩ : SubResult).total ∧
    (smartScrapeSubs c9Spo 0 1 ["Acme"] "Acme" 100 true c9Subs).1.length
        = ((smartScrapeSubs c9Spo 0 1 ["Acme"] "Acme" 100 true
            c9Subs).2.map (fun e => e.2.relevant)).sum ∧
    (smartScrapeSubs c9Spo 0 1 ["Acme"] "Acme" 100 true c9Subs).1.map
        (fun tp => tp.post.sourceId) = ["a1", "a2", "1", "3", "5"] := by
  have h := smartScrapeSubs_invariants c9Spo 0 1 ["Acme"] "Acme" 100 true c9Subs
  have hmem : ("apple", (⟨2, 2, some "primary", none⟩ : SubResult))
      ∈ (smartScrapeSubs c9Spo 0 1 ["Acme"] "Acme" 100 true c9Subs).2 := by
    decide
  have h1 := h.1 _ hmem rfl
  refine ⟨hmem, h1.1, h1.2 (Or.inl (by decide)), h.2.1, ?_⟩
  rw [h.2.2]
  rfl

/-- The retry loop of `fetchRedditJson` executes at most `fuel` attempts. -/
theorem fetchRedditJsonGo_attempts_le {α : Type} (rs : Nat → Resp α) :
    ∀ fuel attempt, (fetchRedditJsonGo rs attempt fuel).attempts ≤ fuel := by
  intro fuel
  induction fuel with
  | zero => intro attempt; rw [fetchRedditJsonGo]
  | succ n ih =>
    intro attempt
    rw [fetchRedditJsonGo]
    cases rs attempt with
    | ok a => exact Nat.succ_le_succ (Nat.zero_le n)
    | rate => exact Nat.succ_le_succ (ih (attempt + 1))
    | blocked => exact Nat.succ_le_succ (ih (attempt + 1))
    | fail msg =>
      cases n with
      | zero => exact Nat.le_refl 1
      | succ m => exact Nat.succ_le_succ (ih (attempt + 1))

/-- C4 (amended): retries of a single page request are bounded —
`fetchRedditJson` executes at most `retries` attempts — and a failing
source never aborts the others: the per-subreddit loop emits exactly one
`subredditResults` entry per discovered source, in order, and every entry
is error-free, because the per-source fetch catches its failures
internally and returns the items collected so far instead of surfacing an
error. -/
theorem retry_bound_and_partial_failure :
    (∀ (α : Type) (rs : Nat → Resp α) (retries : Nat),
      (fetchRedditJson rs retries).attempts ≤ retries) ∧
    (∀ (spo : String → PageOracle) (now windowStart : Int)
      (terms : List String) (c : String) (maxI : Nat) (fSec : Bool)
      (subs : List Sub),
      (smartScrapeSubs spo now windowStart terms c maxI fSec subs).2.map
          Prod.fst = subs.map Sub.name ∧
      ∀ e ∈ (smartScrapeSubs spo now windowStart terms c maxI fSec subs).2,
        e.2.error = none) := by
  constructor
  · exact fun α rs retries => fetchRedditJsonGo_attempts_le rs retries 1
  · intro spo now windowStart terms c maxI fSec subs
    induction subs with
    | nil => exact ⟨rfl, fun e he => absurd he (List.not_mem_nil e)⟩
    | cons sub rest ih =>
      rw [smartScrapeSubs]
      constructor
      · simp only [List.map_cons, ih.1]
      · intro e he
        rcases List.mem_cons.mp he with heq | hmem
        · subst heq
          exact (scrapeOneSub_entry (spo sub.name) now windowStart terms c
            maxI fSec sub).2.2.2.1
        · exact ih.2 e hmem

/-- Witness for `retry_bound_and_partial_failure`: with every request
rate-limited, the single-source run still yields its one error-free entry. -/
theorem retry_bound_and_partial_failure_witness :
    (fetchRedditJson (fun _ => (Resp.rate : Resp ListingJson)) 3).attempts
        ≤ 3 ∧
    (smartScrapeSubs allRateSpo 0 1 ["apple"] "apple" 100 true
        [⟨"apple", "primary"⟩]).2.map Prod.fst = ["apple"] ∧
    ("apple", (⟨0, 0, some "primary", none⟩ : SubResult)).2.error = none := by
  have h := retry_bound_and_partial_failure
  have h2 := h.2 allRateSpo 0 1 ["apple"] "apple" 100 true [⟨"apple", "primary"⟩]
  refine ⟨h.1 ListingJson _ 3, h2.1, h2.2 _ (by decide)⟩

/-- C4 counterexample: with every request answered HTTP 429, the retry
bound of 3 attempts is exceeded on the sole discovered source (the fetch
result is `undef` after 3 attempts), yet `smartScrape` returns an
error-free entry for that source — `subredditResults` holds
`{total := 0, relevant := 0, relevance := "primary"}` with `error = none` —
so no collection error is surfaced in the per-source result map. -/
theorem retry_exhaustion_records_no_error :
    smartScrape allRateSpo (fun _ _ => .rate) 0 1 "apple" false true
        (.ok ⟨[⟨"apple", "primary"⟩], ["apple"]⟩) 100 true
      = .ok ⟨⟨[⟨"apple", "primary"⟩], ["apple"]⟩,
          .scraped [] [("apple", ⟨0, 0, some "primary", none⟩)]⟩ ∧
    (fetchRedditJson (allRateSpo "apple" 0)).result
        = (.undef : FetchRes ListingJson) ∧
    (fetchRedditJson (allRateSpo "apple" 0)).attempts = 3 :=
  ⟨rfl, rfl, rfl⟩

end Threader
